import Mathlib

/-!
Verification of the SchedEase scheduling engine against its specification.

The definitions below are a shallow embedding of the repository:
- the mongoose schemas, defaults and pre-save hooks of the model file
  (User, Instructor, Student, Course, Schedule, ScheduleRequest, Enrollment);
- the admin enrollment component (enrollment count reconciliation and the
  enrolled-students table sort);
- operations whose code is not part of the repository snapshot (the Conflict
  Detector, the enroll operation and the request approval workflow) are
  modelled from the specification and marked as such in their doc comments.

MongoDB ObjectIds are modelled as strings; `Option` marks optional schema
fields; timestamps are natural numbers.  JavaScript string comparison
(`<` on strings, `localeCompare` on code units) is modelled by a
lexicographic comparison of character lists.
-/

namespace SchedEase

/-- Lexicographic comparison of character lists, modelling JavaScript string
comparison (code-unit order). -/
def strLtChars : List Char → List Char → Bool
  | [], [] => false
  | [], _ :: _ => true
  | _ :: _, [] => false
  | a :: as, b :: bs => if a < b then true else if b < a then false else strLtChars as bs

/-- JavaScript-style string strict order. -/
def strLt (a b : String) : Bool := strLtChars a.data b.data

theorem strLtChars_irrefl : ∀ l, strLtChars l l = false
  | [] => rfl
  | a :: as => by simp [strLtChars, strLtChars_irrefl as]

theorem strLtChars_trans : ∀ l1 l2 l3, strLtChars l1 l2 = true → strLtChars l2 l3 = true →
    strLtChars l1 l3 = true
  | [], [], _, h1, _ => by cases h1
  | [], _ :: _, [], _, h2 => by cases h2
  | [], _ :: _, _ :: _, _, _ => rfl
  | _ :: _, [], _, h1, _ => by cases h1
  | _ :: _, _ :: _, [], _, h2 => by cases h2
  | a :: as, b :: bs, c :: cs, h1, h2 => by
    simp only [strLtChars] at h1 h2 ⊢
    rcases lt_trichotomy a b with hab | hab | hab
    · rcases lt_trichotomy b c with hbc | hbc | hbc
      · simp [lt_trans hab hbc]
      · subst hbc; simp [hab]
      · rw [if_neg (asymm hbc), if_pos hbc] at h2; cases h2
    · subst hab
      rcases lt_trichotomy a c with hac | hac | hac
      · simp [hac]
      · subst hac
        rw [if_neg (lt_irrefl a), if_neg (lt_irrefl a)] at h1 h2 ⊢
        exact strLtChars_trans as bs cs h1 h2
      · rw [if_neg (asymm hac), if_pos hac] at h2; cases h2
    · rw [if_neg (asymm hab), if_pos hab] at h1; cases h1

theorem strLtChars_eq_of_not_lt : ∀ l1 l2, strLtChars l1 l2 = false → strLtChars l2 l1 = false →
    l1 = l2
  | [], [], _, _ => rfl
  | [], _ :: _, h1, _ => by cases h1
  | _ :: _, [], _, h2 => by cases h2
  | a :: as, b :: bs, h1, h2 => by
    simp only [strLtChars] at h1 h2
    rcases lt_trichotomy a b with hab | hab | hab
    · rw [if_pos hab] at h1; cases h1
    · subst hab
      rw [if_neg (lt_irrefl a), if_neg (lt_irrefl a)] at h1 h2
      rw [strLtChars_eq_of_not_lt as bs h1 h2]
    · rw [if_pos hab] at h2; cases h2

theorem strLt_irrefl (a : String) : strLt a a = false := strLtChars_irrefl a.data

theorem strLt_trans {a b c : String} (h1 : strLt a b = true) (h2 : strLt b c = true) :
    strLt a c = true := strLtChars_trans a.data b.data c.data h1 h2

theorem strLt_eq_of_not_lt {a b : String} (h1 : strLt a b = false) (h2 : strLt b a = false) :
    a = b := by
  have h := strLtChars_eq_of_not_lt a.data b.data h1 h2
  cases a; cases b; exact congrArg String.mk h

theorem strLt_asymm {a b : String} (h : strLt a b = true) : strLt b a = false := by
  cases hb : strLt b a
  · rfl
  · have := strLt_trans h hb
    rw [strLt_irrefl] at this
    cases this

/-- MongoDB ObjectIds, modelled as strings. -/
abbrev Oid := String

/-- A document of the User collection (userSchema): the fields the engine reads. -/
structure UserRec where
  uid : Oid
  name : String
  email : String
  role : String
  department : Option String
  «section» : Option String
deriving DecidableEq

/-- A document of the Instructor collection (instructorSchema). -/
structure InstructorRec where
  iid : Oid
  userId : Oid
  maxHoursPerWeek : Nat
  specializations : List String
deriving DecidableEq

/-- A document of the Student collection (studentSchema). -/
structure StudentRec where
  docId : Oid
  userId : Oid
  studentId : String
  department : Option String
  year : String
  «section» : String
  enrolledCourses : List Oid
deriving DecidableEq

/-- A document of the Course collection (courseSchema). -/
structure CourseRec where
  cid : Oid
  code : String
  name : String
  department : String
  credits : Nat
  ctype : String
  duration : Nat
  studentsEnrolled : Nat
  requiredCapacity : Nat
  specialRequirements : List String
  instructorId : Option Oid
  instructorName : Option String
  createdAt : Nat
deriving DecidableEq

/-- A document of the Schedule collection (scheduleSchema). -/
structure ScheduleRec where
  courseId : Oid
  instructorId : Oid
  roomId : Oid
  dayOfWeek : String
  startTime : String
  endTime : String
  semester : String
  year : Int
  academicYear : String
  status : String
  conflicts : List String
  courseCode : Option String
  courseName : Option String
  instructorName : Option String
  roomName : Option String
  building : Option String
  createdAt : Nat
  updatedAt : Nat
deriving DecidableEq

/-- A document of the Enrollment collection (enrollmentSchema). -/
structure EnrollmentRec where
  oid : Oid
  studentId : Oid
  courseId : Oid
  scheduleId : Option Oid
  instructorId : Option Oid
  yearLevel : Option String
  «section» : Option String
  department : Option String
  studentName : Option String
  courseName : Option String
  courseCode : Option String
  createdAt : Nat
deriving DecidableEq

/-- The request lifecycle states (scheduleRequestSchema status enum). -/
inductive ReqStatus
  | pending
  | under_review
  | approved
  | rejected
deriving DecidableEq

/-- A document of the ScheduleRequest collection (scheduleRequestSchema). -/
structure ScheduleRequestRec where
  rid : Oid
  instructorId : Oid
  courseId : Option Oid
  scheduleId : Option Oid
  requestType : String
  roomId : Option Oid
  date : Option String
  dayOfWeek : Option String
  startTime : Option String
  endTime : Option String
  semester : Option String
  year : Option Int
  purpose : Option String
  notes : Option String
  conflict_flag : Bool
  conflicts : List String
  instructorName : Option String
  courseName : Option String
  courseCode : Option String
  roomName : Option String
  details : String
  status : ReqStatus
  createdAt : Nat
  updatedAt : Nat
deriving DecidableEq

/-- The referenced collections a pre-save hook can resolve ids against. -/
structure Db where
  users : List UserRec
  instructors : List InstructorRec
  students : List StudentRec
  courses : List CourseRec
deriving DecidableEq

/-- findById on the User collection. -/
def findUser (db : Db) (uid : Oid) : Option UserRec :=
  db.users.find? (fun u => decide (u.uid = uid))

/-- findById on the Instructor collection. -/
def findInstructor (db : Db) (iid : Oid) : Option InstructorRec :=
  db.instructors.find? (fun i => decide (i.iid = iid))

/-- findById on the Student collection. -/
def findStudent (db : Db) (sid : Oid) : Option StudentRec :=
  db.students.find? (fun s => decide (s.docId = sid))

/-- findById on the Course collection. -/
def findCourse (db : Db) (cid : Oid) : Option CourseRec :=
  db.courses.find? (fun c => decide (c.cid = cid))

/-- Document validation declared by courseSchema: required fields, enums and
minimums. -/
def courseDocValid (c : CourseRec) : Bool :=
  decide (c.code ≠ "") && decide (c.name ≠ "") && decide (c.department ≠ "") &&
    decide (1 ≤ c.credits) && ["lecture", "lab", "seminar"].contains c.ctype &&
    decide (30 ≤ c.duration) && decide (1 ≤ c.requiredCapacity)

/-- The seven dayOfWeek enum values of scheduleSchema. -/
def scheduleDayEnum : List String :=
  ["Monday", "Tuesday", "Wednesday", "Thursday", "Friday", "Saturday", "Sunday"]

/-- The status enum of scheduleSchema. -/
def scheduleStatusEnum : List String := ["draft", "published", "conflict", "canceled"]

/-- The schema default for Schedule.status. -/
def scheduleStatusDefault : String := "published"

/-- Document validation declared by scheduleSchema: required fields and enums.
No validator relates status to the conflicts list. -/
def scheduleDocValid (s : ScheduleRec) : Bool :=
  decide (s.courseId ≠ "") && decide (s.instructorId ≠ "") && decide (s.roomId ≠ "") &&
    scheduleDayEnum.contains s.dayOfWeek && decide (s.startTime ≠ "") &&
    decide (s.endTime ≠ "") && ["First Term", "Second Term", "Third Term"].contains s.semester &&
    decide (s.academicYear ≠ "") && scheduleStatusEnum.contains s.status

/-- Document validation declared by enrollmentSchema: studentId and courseId are
required, yearLevel must lie in its enum when present.  The schema declares no
unique field and no index, so it imposes no cross-document constraint. -/
def enrollmentDocValid (e : EnrollmentRec) : Bool :=
  decide (e.studentId ≠ "") && decide (e.courseId ≠ "") &&
    (match e.yearLevel with
     | none => true
     | some y => ["1", "2", "3", "4"].contains y)

/-- Everything the Enrollment store boundary checks about a stored collection:
each document passes enrollmentSchema validation.  enrollmentSchema carries no
unique field option and no schema.index call, hence nothing cross-document. -/
def enrollmentStoreAdmits (recs : List EnrollmentRec) : Bool :=
  recs.all enrollmentDocValid

/-- The course pre-save hook: when instructorId is set it resolves
Instructor then the populated User and copies a non-empty User.name into
instructorName; when instructorId is unset it clears instructorName; on any
failed resolution it leaves the document untouched. -/
def coursePreSave (db : Db) (c : CourseRec) : CourseRec :=
  match c.instructorId with
  | some iid =>
    match findInstructor db iid with
    | some instr =>
      match findUser db instr.userId with
      | some u => if u.name = "" then c else { c with instructorName := some u.name }
      | none => c
    | none => c
  | none => { c with instructorName := none }

/-- Saving a Course: validate, run the pre-save hook, persist the result.  A
failed reference resolution is not an error and does not abort the write. -/
def saveCourse (db : Db) (c : CourseRec) : Except String CourseRec :=
  if courseDocValid c then Except.ok (coursePreSave db c) else Except.error "ValidationError"

/-- The schedule pre-save hook: it sets updatedAt to the current time and
touches nothing else. -/
def schedulePreSave (now : Nat) (s : ScheduleRec) : ScheduleRec :=
  { s with updatedAt := now }

/-- Saving a Schedule: validate, run the pre-save hook, append to the store.
No conflict computation happens anywhere on this path. -/
def saveSchedule (now : Nat) (s : ScheduleRec) (store : List ScheduleRec) :
    Except String (List ScheduleRec) :=
  if scheduleDocValid s then Except.ok (store ++ [schedulePreSave now s])
  else Except.error "ValidationError"

/-- A Schedule document as mongoose creates it: every field the caller left
unset receives its schema default (status becomes published, conflicts and the
denormalized fields stay empty, timestamps default to now). -/
def newSchedule (courseId instructorId roomId dayOfWeek startTime endTime semester : String)
    (year : Int) (academicYear : String) (now : Nat) : ScheduleRec :=
  { courseId := courseId, instructorId := instructorId, roomId := roomId,
    dayOfWeek := dayOfWeek, startTime := startTime, endTime := endTime,
    semester := semester, year := year, academicYear := academicYear,
    status := scheduleStatusDefault, conflicts := [],
    courseCode := none, courseName := none, instructorName := none,
    roomName := none, building := none, createdAt := now, updatedAt := now }

/-- JavaScript a or-else b on optional strings: the first truthy value wins and
the empty string is falsy. -/
def jsOrStr (a b : Option String) : Option String :=
  match a with
  | some s => if s = "" then b else some s
  | none => b

/-- The enrollment pre-save hook: on a new document or when studentId/courseId
changed, it resolves Student then the populated User for studentName and
department, and the Course for courseName/courseCode; unresolved references
leave the corresponding fields untouched. -/
def enrollmentPreSave (db : Db) (isNew modStudent modCourse : Bool) (e : EnrollmentRec) :
    EnrollmentRec :=
  if isNew || modStudent || modCourse then
    let e1 :=
      match findStudent db e.studentId with
      | some st =>
        match findUser db st.userId with
        | some u =>
          { e with studentName := some u.name,
                   department := jsOrStr st.department (jsOrStr u.department e.department) }
        | none => e
      | none => e
    match findCourse db e1.courseId with
    | some co => { e1 with courseName := some co.name, courseCode := some co.code }
    | none => e1
  else e

/-- Saving an Enrollment: validate, run the pre-save hook, persist.  A failed
reference resolution is not an error and does not abort the write. -/
def saveEnrollment (db : Db) (isNew modStudent modCourse : Bool) (e : EnrollmentRec) :
    Except String EnrollmentRec :=
  if enrollmentDocValid e then Except.ok (enrollmentPreSave db isNew modStudent modCourse e)
  else Except.error "ValidationError"

/-- Modelled from the spec: the day key of a time-bounded claim — requests
carrying a specific date compare on the date, all others on the dayOfWeek
name (the Conflict Detector itself is not part of the repository snapshot). -/
inductive DayKey
  | day (d : String)
  | onDate (d : String)
deriving DecidableEq

/-- Modelled from the spec: a time-bounded resource claim as the Conflict
Detector compares them — a day key and an HH:MM window. -/
structure TimeClaim where
  key : DayKey
  startTime : String
  endTime : String
deriving DecidableEq

/-- Modelled from the spec: two time windows overlap iff they share the same
day key and candidate.start < existing.end and existing.start < candidate.end
(half-open intervals; the Conflict Detector is not part of the snapshot). -/
def windowsOverlap (c e : TimeClaim) : Bool :=
  decide (c.key = e.key) && strLt c.startTime e.endTime && strLt e.startTime c.endTime

/-- Modelled from the spec: one member of the approved comparison set (a
published Schedule or an approved ScheduleRequest) together with the
human-readable description a conflict with it produces. -/
structure ApprovedEntry where
  eid : Oid
  claim : TimeClaim
  descr : String
deriving DecidableEq

/-- Modelled from the spec: the Conflict Detector — the descriptions of all
approved entries whose window overlaps the candidate (the detector itself is
not part of the snapshot). -/
def detectConflicts (cand : TimeClaim) (approvedSet : List ApprovedEntry) : List String :=
  (approvedSet.filter (fun e => windowsOverlap cand e.claim)).map (fun e => e.descr)

/-- The time claim a Schedule document makes. -/
def scheduleClaim (s : ScheduleRec) : TimeClaim :=
  { key := DayKey.day s.dayOfWeek, startTime := s.startTime, endTime := s.endTime }

/-- The time claim a ScheduleRequest makes: its date when date-specific, its
dayOfWeek otherwise. -/
def reqClaim (r : ScheduleRequestRec) : TimeClaim :=
  { key :=
      match r.date with
      | some d => DayKey.onDate d
      | none => DayKey.day (r.dayOfWeek.getD "")
    startTime := r.startTime.getD ""
    endTime := r.endTime.getD "" }

/-- Number of Enrollment documents stored for a (studentId, scheduleId) pair. -/
def pairCount (sid : Oid) (schId : Option Oid) (recs : List EnrollmentRec) : Nat :=
  recs.countP (fun e => decide (e.studentId = sid ∧ e.scheduleId = schId))

/-- The error of a rejected enroll call. -/
inductive EnrollError
  | DuplicateEnrollmentError
deriving DecidableEq

/-- Result and post-state of an enroll call. -/
structure EnrollOutcome where
  result : Except EnrollError EnrollmentRec
  store : List EnrollmentRec

/-- Modelled from the spec: the enroll operation of the Enrollment Consistency
Guard (not part of the repository snapshot) — it fails with a
DuplicateEnrollmentError and creates no record when an Enrollment already
exists for the (studentId, scheduleId) pair, and appends the record
otherwise. -/
def enroll (r : EnrollmentRec) (store : List EnrollmentRec) : EnrollOutcome :=
  if 0 < pairCount r.studentId r.scheduleId store then
    { result := Except.error EnrollError.DuplicateEnrollmentError, store := store }
  else
    { result := Except.ok r, store := store ++ [r] }

/-- The errors a request transition can surface. -/
inductive TransitionError
  | conflictDetected (cs : List String)
  | illegalTransition
deriving DecidableEq

/-- Result and persisted record of a request transition. -/
structure TransitionOutcome where
  result : Except TransitionError ReqStatus
  record : ScheduleRequestRec

/-- Modelled from the spec: the Request Approval Workflow transition (not part
of the repository snapshot).  Attempting approved re-runs the Conflict
Detector against the current approved set, persists conflicts/conflict_flag
regardless of the outcome, refuses the transition when a conflict is found,
and is a no-op on an already-approved request; under_review is reachable from
pending and also re-evaluates; rejected is always reachable from a
non-terminal state. -/
def transitionRequest (r : ScheduleRequestRec) (approvedSet : List ApprovedEntry)
    (target : ReqStatus) : TransitionOutcome :=
  match target with
  | ReqStatus.approved =>
    if r.status = ReqStatus.approved then
      { result := Except.ok ReqStatus.approved, record := r }
    else if r.status = ReqStatus.rejected then
      { result := Except.error TransitionError.illegalTransition, record := r }
    else
      let cs := detectConflicts (reqClaim r) approvedSet
      let r1 := { r with conflicts := cs, conflict_flag := !cs.isEmpty }
      if cs.isEmpty then
        { result := Except.ok ReqStatus.approved, record := { r1 with status := ReqStatus.approved } }
      else
        { result := Except.error (TransitionError.conflictDetected cs), record := r1 }
  | ReqStatus.under_review =>
    if r.status = ReqStatus.pending then
      let cs := detectConflicts (reqClaim r) approvedSet
      { result := Except.ok ReqStatus.under_review,
        record := { r with conflicts := cs, conflict_flag := !cs.isEmpty,
                           status := ReqStatus.under_review } }
    else
      { result := Except.error TransitionError.illegalTransition, record := r }
  | ReqStatus.rejected =>
    if r.status = ReqStatus.approved then
      { result := Except.error TransitionError.illegalTransition, record := r }
    else
      { result := Except.ok ReqStatus.rejected, record := { r with status := ReqStatus.rejected } }
  | ReqStatus.pending =>
    { result := Except.error TransitionError.illegalTransition, record := r }

/-- An enrollment row as the admin component receives it, after id extraction:
scheduleId is the extracted schedule id, the empty string when the record
carries none (falsy in the component). -/
structure EnrollmentRow where
  scheduleId : String
deriving DecidableEq

/-- A schedule row as the admin component receives it: its id and the
enrolledCount the API reported for it (zero when absent). -/
structure ScheduleRow where
  sid : String
  enrolledCount : Nat
deriving DecidableEq

/-- The per-schedule count the component tracks while walking the fetched
enrollments: only truthy schedule ids are entered into the map, so a falsy
key always misses. -/
def trackedCount (es : List EnrollmentRow) (k : String) : Nat :=
  if k = "" then 0 else es.countP (fun e => decide (e.scheduleId = k))

/-- The enrolledCount the schedule summary displays: the tracked count when
the map has an entry, otherwise the API-provided count, otherwise zero. -/
def summaryEnrolledCount (es : List EnrollmentRow) (s : ScheduleRow) : Nat :=
  if trackedCount es s.sid ≠ 0 then trackedCount es s.sid else s.enrolledCount

/-- A row of the admin enrolled-students table (the normalized EnrolledStudent
shape the component builds). -/
structure EnrolledStudent where
  id : String
  studentId : String
  studentName : String
  yearLevel : String
  «section» : String
  department : String
  courseId : String
  courseCode : String
  courseName : String
  scheduleId : String
  instructorName : String
  dayOfWeek : String
  startTime : String
  endTime : String
  semester : String
  academicYear : String
deriving DecidableEq

/-- JavaScript comparator result of localeCompare, modelled on code units:
negative when a sorts before b, positive when after, zero on ties. -/
def jsCompareStr (a b : String) : Int :=
  if strLt a b then -1 else if strLt b a then 1 else 0

/-- The sortEnrolledStudents comparator of the admin component: yearLevel,
then section, then studentName. -/
def sortEnrolledStudents (a b : EnrolledStudent) : Int :=
  if a.yearLevel ≠ b.yearLevel then jsCompareStr a.yearLevel b.yearLevel
  else if a.«section» ≠ b.«section» then jsCompareStr a.«section» b.«section»
  else jsCompareStr a.studentName b.studentName

/-- The non-strict order the comparator induces. -/
def studentLe (a b : EnrolledStudent) : Prop := sortEnrolledStudents a b ≤ 0

instance : DecidableRel studentLe := fun a b => by
  unfold studentLe
  infer_instance

/-- The table render of the admin component: it sorts a spread copy of the
enrolledStudents state with the comparator; the first component is the row
order rendered, the second is the state array after rendering. -/
def renderRows (enrolledStudents : List EnrolledStudent) :
    List EnrolledStudent × List EnrolledStudent :=
  (List.insertionSort studentLe enrolledStudents, enrolledStudents)

/-- The lexicographic reading of the comparator on the (yearLevel, section,
studentName) key. -/
def keyLt (a b : EnrolledStudent) : Prop :=
  strLt a.yearLevel b.yearLevel = true ∨ (a.yearLevel = b.yearLevel ∧
    (strLt a.«section» b.«section» = true ∨ (a.«section» = b.«section» ∧
      (strLt a.studentName b.studentName = true ∨ a.studentName = b.studentName))))

theorem jsCompareStr_le_iff (a b : String) :
    jsCompareStr a b ≤ 0 ↔ (strLt a b = true ∨ a = b) := by
  unfold jsCompareStr
  rcases Bool.dichotomy (strLt a b) with h1 | h1
  · rcases Bool.dichotomy (strLt b a) with h2 | h2
    · simp [h1, h2, strLt_eq_of_not_lt h1 h2, strLt_irrefl]
    · have hne : a ≠ b := fun h => by
        subst h; rw [strLt_irrefl] at h2; cases h2
      simp [h1, h2, hne]
  · simp [h1]

theorem studentLe_iff_keyLt (a b : EnrolledStudent) : studentLe a b ↔ keyLt a b := by
  unfold studentLe sortEnrolledStudents keyLt
  by_cases hy : a.yearLevel = b.yearLevel
  · rw [if_neg (by simp [hy])]
    by_cases hs : a.«section» = b.«section»
    · rw [if_neg (by simp [hs])]
      rw [jsCompareStr_le_iff]
      constructor
      · rintro (h | h)
        · exact Or.inr ⟨hy, Or.inr ⟨hs, Or.inl h⟩⟩
        · exact Or.inr ⟨hy, Or.inr ⟨hs, Or.inr h⟩⟩
      · rintro (h | ⟨_, h | ⟨_, h | h⟩⟩)
        · rw [hy, strLt_irrefl] at h; cases h
        · rw [hs, strLt_irrefl] at h; cases h
        · exact Or.inl h
        · exact Or.inr h
    · rw [if_pos hs]
      rw [jsCompareStr_le_iff]
      constructor
      · rintro (h | h)
        · exact Or.inr ⟨hy, Or.inl h⟩
        · exact absurd h hs
      · rintro (h | ⟨_, h | ⟨h, _⟩⟩)
        · rw [hy, strLt_irrefl] at h; cases h
        · exact Or.inl h
        · exact absurd h hs
  · rw [if_pos hy]
    rw [jsCompareStr_le_iff]
    constructor
    · rintro (h | h)
      · exact Or.inl h
      · exact absurd h hy
    · rintro (h | ⟨h, _⟩)
      · exact Or.inl h
      · exact absurd h hy

theorem keyLt_total (a b : EnrolledStudent) : keyLt a b ∨ keyLt b a := by
  unfold keyLt
  rcases Bool.dichotomy (strLt a.yearLevel b.yearLevel) with h1 | h1
  · rcases Bool.dichotomy (strLt b.yearLevel a.yearLevel) with h2 | h2
    · have hy : a.yearLevel = b.yearLevel := strLt_eq_of_not_lt h1 h2
      rcases Bool.dichotomy (strLt a.«section» b.«section») with h3 | h3
      · rcases Bool.dichotomy (strLt b.«section» a.«section») with h4 | h4
        · have hs : a.«section» = b.«section» := strLt_eq_of_not_lt h3 h4
          rcases Bool.dichotomy (strLt a.studentName b.studentName) with h5 | h5
          · rcases Bool.dichotomy (strLt b.studentName a.studentName) with h6 | h6
            · have hn : a.studentName = b.studentName := strLt_eq_of_not_lt h5 h6
              exact Or.inl (Or.inr ⟨hy, Or.inr ⟨hs, Or.inr hn⟩⟩)
            · exact Or.inr (Or.inr ⟨hy.symm, Or.inr ⟨hs.symm, Or.inl h6⟩⟩)
          · exact Or.inl (Or.inr ⟨hy, Or.inr ⟨hs, Or.inl h5⟩⟩)
        · exact Or.inr (Or.inr ⟨hy.symm, Or.inl h4⟩)
      · exact Or.inl (Or.inr ⟨hy, Or.inl h3⟩)
    · exact Or.inr (Or.inl h2)
  · exact Or.inl (Or.inl h1)

theorem keyLt_trans {a b c : EnrolledStudent} (h1 : keyLt a b) (h2 : keyLt b c) : keyLt a c := by
  unfold keyLt at h1 h2 ⊢
  rcases h1 with h1 | ⟨e1, h1⟩
  · rcases h2 with h2 | ⟨e2, _⟩
    · exact Or.inl (strLt_trans h1 h2)
    · exact Or.inl (e2 ▸ h1)
  · rcases h2 with h2 | ⟨e2, h2⟩
    · exact Or.inl (e1 ▸ h2)
    · refine Or.inr ⟨e1.trans e2, ?_⟩
      rcases h1 with h1 | ⟨f1, h1⟩
      · rcases h2 with h2 | ⟨f2, _⟩
        · exact Or.inl (strLt_trans h1 h2)
        · exact Or.inl (f2 ▸ h1)
      · rcases h2 with h2 | ⟨f2, h2⟩
        · exact Or.inl (f1 ▸ h2)
        · refine Or.inr ⟨f1.trans f2, ?_⟩
          rcases h1 with h1 | h1
          · rcases h2 with h2 | h2
            · exact Or.inl (strLt_trans h1 h2)
            · exact Or.inl (h2 ▸ h1)
          · rcases h2 with h2 | h2
            · exact Or.inl (h1 ▸ h2)
            · exact Or.inr (h1.trans h2)

theorem studentLe_total (a b : EnrolledStudent) : studentLe a b ∨ studentLe b a := by
  rw [studentLe_iff_keyLt, studentLe_iff_keyLt]
  exact keyLt_total a b

theorem studentLe_trans {a b c : EnrolledStudent} (h1 : studentLe a b) (h2 : studentLe b c) :
    studentLe a c := by
  rw [studentLe_iff_keyLt] at h1 h2 ⊢
  exact keyLt_trans h1 h2

/-- Claim C3: for every candidate and existing time-bounded claim, the
Conflict Detector reports an overlap iff the two share the same day key and
candidate.start < existing.end and existing.start < candidate.end; touching
windows (one ends exactly when the other starts) never produce a conflict. -/
theorem c3_overlap_iff_strict_touching_never (c e : TimeClaim) :
    (windowsOverlap c e = true ↔
      (c.key = e.key ∧ strLt c.startTime e.endTime = true ∧
        strLt e.startTime c.endTime = true)) ∧
    (c.endTime = e.startTime ∨ e.endTime = c.startTime → windowsOverlap c e = false) := by
  constructor
  · simp [windowsOverlap, Bool.and_eq_true, decide_eq_true_eq, and_assoc]
  · rintro (h | h) <;>
      · unfold windowsOverlap
        rw [h, strLt_irrefl]
        simp

theorem c3_overlap_iff_strict_touching_never_witness :
    windowsOverlap { key := DayKey.day "Monday", startTime := "09:00", endTime := "10:00" }
        { key := DayKey.day "Monday", startTime := "10:00", endTime := "11:00" } = false :=
  (c3_overlap_iff_strict_touching_never
    { key := DayKey.day "Monday", startTime := "09:00", endTime := "10:00" }
    { key := DayKey.day "Monday", startTime := "10:00", endTime := "11:00" }).2 (Or.inl rfl)

/-- Claim C5: for every Course saved with instructorId set and resolving to an
Instructor whose linked User exists with a non-empty name, the save completes
and the stored instructorName equals that User name. -/
theorem c5_saved_course_carries_linked_user_name (db : Db) (c : CourseRec) (iid : Oid)
    (instr : InstructorRec) (u : UserRec)
    (h1 : c.instructorId = some iid) (h2 : findInstructor db iid = some instr)
    (h3 : findUser db instr.userId = some u) (h4 : u.name ≠ "")
    (hv : courseDocValid c = true) :
    saveCourse db c = Except.ok (coursePreSave db c) ∧
    (coursePreSave db c).instructorName = some u.name := by
  constructor
  · simp [saveCourse, hv]
  · simp [coursePreSave, h1, h2, h3, h4]

def c5User : UserRec :=
  { uid := "u1", name := "Prof. Michael Chen", email := "instructor@university.edu",
    role := "instructor", department := some "Computer Science", «section» := none }

def c5Instructor : InstructorRec :=
  { iid := "i1", userId := "u1", maxHoursPerWeek := 20, specializations := [] }

def c5Db : Db := { users := [c5User], instructors := [c5Instructor], students := [], courses := [] }

def c5Course : CourseRec :=
  { cid := "cA", code := "CS101", name := "Introduction to Computer Science",
    department := "Computer Science", credits := 3, ctype := "lecture", duration := 90,
    studentsEnrolled := 0, requiredCapacity := 50, specialRequirements := [],
    instructorId := some "i1", instructorName := none, createdAt := 0 }

theorem c5_saved_course_carries_linked_user_name_witness :
    saveCourse c5Db c5Course = Except.ok (coursePreSave c5Db c5Course) ∧
    (coursePreSave c5Db c5Course).instructorName = some "Prof. Michael Chen" :=
  c5_saved_course_carries_linked_user_name c5Db c5Course "i1" c5Instructor c5User
    rfl (by decide) (by decide) (by decide) (by decide)

/-- Claim C7: for every Course saved with instructorId unset, the pre-save hook
clears the denormalized instructorName: after the save it is unset. -/
theorem c7_cleared_instructor_clears_name (db : Db) (c : CourseRec)
    (h : c.instructorId = none) :
    (coursePreSave db c).instructorName = none := by
  simp [coursePreSave, h]

def c7Course : CourseRec :=
  { cid := "cB", code := "MATH201", name := "Calculus II", department := "Mathematics",
    credits := 4, ctype := "lecture", duration := 75, studentsEnrolled := 0,
    requiredCapacity := 80, specialRequirements := [], instructorId := none,
    instructorName := some "Stale Instructor Name", createdAt := 0 }

def c7Db : Db := { users := [], instructors := [], students := [], courses := [] }

theorem c7_cleared_instructor_clears_name_witness :
    (coursePreSave c7Db c7Course).instructorName = none :=
  c7_cleared_instructor_clears_name c7Db c7Course rfl

/-- Claim C9: the schedule pre-save hook sets updatedAt to the time of the save
and modifies no other field, regardless of which fields changed. -/
theorem c9_schedule_presave_only_touches_updated_at (now : Nat) (s : ScheduleRec) :
    (schedulePreSave now s).updatedAt = now ∧
    (schedulePreSave now s).courseId = s.courseId ∧
    (schedulePreSave now s).instructorId = s.instructorId ∧
    (schedulePreSave now s).roomId = s.roomId ∧
    (schedulePreSave now s).dayOfWeek = s.dayOfWeek ∧
    (schedulePreSave now s).startTime = s.startTime ∧
    (schedulePreSave now s).endTime = s.endTime ∧
    (schedulePreSave now s).semester = s.semester ∧
    (schedulePreSave now s).year = s.year ∧
    (schedulePreSave now s).academicYear = s.academicYear ∧
    (schedulePreSave now s).status = s.status ∧
    (schedulePreSave now s).conflicts = s.conflicts ∧
    (schedulePreSave now s).courseCode = s.courseCode ∧
    (schedulePreSave now s).courseName = s.courseName ∧
    (schedulePreSave now s).instructorName = s.instructorName ∧
    (schedulePreSave now s).roomName = s.roomName ∧
    (schedulePreSave now s).building = s.building ∧
    (schedulePreSave now s).createdAt = s.createdAt :=
  ⟨rfl, rfl, rfl, rfl, rfl, rfl, rfl, rfl, rfl, rfl, rfl, rfl, rfl, rfl, rfl, rfl, rfl, rfl⟩

/-- Claim C10: the admin enrolled-students table renders a copy of the state
sorted ascending by yearLevel, then section, then studentName (string
comparison); the comparator is a total transitive order, the rendered rows are
a sorted permutation of the state, and the state array itself is unmodified. -/
theorem c10_admin_table_sorted_copy (l : List EnrolledStudent) :
    ((renderRows l).1).Perm l ∧
    List.Sorted studentLe (renderRows l).1 ∧
    (renderRows l).2 = l ∧
    (∀ a b, studentLe a b ↔ keyLt a b) ∧
    (∀ a b, studentLe a b ∨ studentLe b a) ∧
    (∀ a b c, studentLe a b → studentLe b c → studentLe a c) := by
  refine ⟨List.perm_insertionSort studentLe l, ?_, rfl, studentLe_iff_keyLt, studentLe_total,
    fun a b c h1 h2 => studentLe_trans h1 h2⟩
  haveI : IsTotal EnrolledStudent studentLe := ⟨studentLe_total⟩
  haveI : IsTrans EnrolledStudent studentLe := ⟨fun a b c h1 h2 => studentLe_trans h1 h2⟩
  exact List.sorted_insertionSort studentLe l

def c10RowA : EnrolledStudent :=
  { id := "en1", studentId := "stu1", studentName := "Alex Smith", yearLevel := "2",
    «section» := "A", department := "Computer Science", courseId := "crs1",
    courseCode := "CS101", courseName := "Introduction to Computer Science",
    scheduleId := "sch1", instructorName := "Prof. Michael Chen", dayOfWeek := "Monday",
    startTime := "09:00", endTime := "10:30", semester := "First Term",
    academicYear := "2024-2025" }

def c10RowB : EnrolledStudent :=
  { c10RowA with id := "en2", studentId := "stu2", studentName := "Beth Jones",
                 yearLevel := "1" }

def c10RowC : EnrolledStudent :=
  { c10RowA with id := "en3", studentId := "stu3", studentName := "Cara Lee",
                 yearLevel := "3" }

theorem c10_admin_table_sorted_copy_witness :
    ((renderRows [c10RowA, c10RowB]).1).Perm [c10RowA, c10RowB] ∧
    List.Sorted studentLe (renderRows [c10RowA, c10RowB]).1 ∧
    (renderRows [c10RowA, c10RowB]).2 = [c10RowA, c10RowB] ∧
    studentLe c10RowB c10RowC := by
  have h := c10_admin_table_sorted_copy [c10RowA, c10RowB]
  exact ⟨h.1, h.2.1, h.2.2.1,
    h.2.2.2.2.2 c10RowB c10RowA c10RowC (by decide) (by decide)⟩

/-- Claim C2: for every ScheduleRequest in a non-terminal state whose conflict
check at the moment of approval comes back non-empty, the transition to
approved fails: the caller receives an error carrying the conflicts, the
status stays unchanged, the record changes in nothing but the persisted
conflicts/conflict_flag, and when it already carried that evaluation the
record is entirely unchanged. -/
theorem c2_conflicted_approval_fails (r : ScheduleRequestRec) (approvedSet : List ApprovedEntry)
    (h1 : r.status = ReqStatus.pending ∨ r.status = ReqStatus.under_review)
    (h2 : detectConflicts (reqClaim r) approvedSet ≠ []) :
    (transitionRequest r approvedSet ReqStatus.approved).result =
      Except.error (TransitionError.conflictDetected (detectConflicts (reqClaim r) approvedSet)) ∧
    (transitionRequest r approvedSet ReqStatus.approved).record.status = r.status ∧
    (transitionRequest r approvedSet ReqStatus.approved).record =
      { r with conflicts := detectConflicts (reqClaim r) approvedSet, conflict_flag := true } ∧
    (r.conflict_flag = true → r.conflicts = detectConflicts (reqClaim r) approvedSet →
      (transitionRequest r approvedSet ReqStatus.approved).record = r) := by
  have hna : ¬ r.status = ReqStatus.approved := by
    rcases h1 with h | h <;> simp [h]
  have hnr : ¬ r.status = ReqStatus.rejected := by
    rcases h1 with h | h <;> simp [h]
  have hemp : (detectConflicts (reqClaim r) approvedSet).isEmpty = false := by
    cases hd : detectConflicts (reqClaim r) approvedSet with
    | nil => exact absurd hd h2
    | cons a t => rfl
  have hrec : transitionRequest r approvedSet ReqStatus.approved =
      { result :=
          Except.error (TransitionError.conflictDetected (detectConflicts (reqClaim r) approvedSet)),
        record :=
          { r with conflicts := detectConflicts (reqClaim r) approvedSet,
                   conflict_flag := true } } := by
    unfold transitionRequest
    rw [if_neg hna, if_neg hnr]
    simp [hemp]
  refine ⟨by rw [hrec], by rw [hrec], by rw [hrec], ?_⟩
  intro hf hcs
  rw [hrec]
  cases r
  simp only at hf hcs ⊢
  rw [← hcs, hf]

def c2Req : ScheduleRequestRec :=
  { rid := "r1", instructorId := "i1", courseId := none, scheduleId := none,
    requestType := "time_change", roomId := none, date := none,
    dayOfWeek := some "Tuesday", startTime := some "14:00", endTime := some "15:00",
    semester := some "First Term", year := some 2024, purpose := none, notes := none,
    conflict_flag := true,
    conflicts := ["Instructor conflict with approved schedule s9"],
    instructorName := none, courseName := none, courseCode := none, roomName := none,
    details := "Move the quiz to Tuesday afternoon", status := ReqStatus.pending,
    createdAt := 0, updatedAt := 0 }

def c2Approved : List ApprovedEntry :=
  [{ eid := "s9",
     claim := { key := DayKey.day "Tuesday", startTime := "13:30", endTime := "14:30" },
     descr := "Instructor conflict with approved schedule s9" }]

theorem c2_conflicted_approval_fails_witness :
    (transitionRequest c2Req c2Approved ReqStatus.approved).result =
      Except.error (TransitionError.conflictDetected
        (detectConflicts (reqClaim c2Req) c2Approved)) ∧
    (transitionRequest c2Req c2Approved ReqStatus.approved).record = c2Req := by
  have h := c2_conflicted_approval_fails c2Req c2Approved (Or.inl rfl) (by decide)
  exact ⟨h.1, h.2.2.2 rfl (by decide)⟩

def c1E1 : EnrollmentRec :=
  { oid := "e1", studentId := "stu1", courseId := "crs1", scheduleId := some "sch1",
    instructorId := none, yearLevel := some "2", «section» := some "A",
    department := some "Computer Science", studentName := some "Alex Smith",
    courseName := none, courseCode := none, createdAt := 0 }

def c1E2 : EnrollmentRec := { c1E1 with oid := "e2", createdAt := 1 }

/-- Claim C1, counterexample: the Enrollment schema enforces no uniqueness on
the (studentId, scheduleId) pair at the store boundary — a collection holding
two distinct Enrollment documents with the same pair satisfies every
constraint the schema declares. -/
theorem c1_counterexample_store_accepts_duplicate_pair :
    enrollmentStoreAdmits [c1E1, c1E2] = true ∧
    c1E1.studentId = c1E2.studentId ∧
    c1E1.scheduleId = c1E2.scheduleId ∧
    c1E1 ≠ c1E2 ∧
    pairCount c1E1.studentId c1E1.scheduleId [c1E1, c1E2] = 2 := by decide

/-- Claim C1, amended: a second enroll call for the same (studentId,
scheduleId) pair fails with a DuplicateEnrollmentError, creates no record, and
exactly one Enrollment for the pair exists afterward; the uniqueness is
application-level (the enroll operation modelled from the spec), not a
constraint the Enrollment schema declares at the store boundary. -/
theorem c1_second_enroll_rejected (store : List EnrollmentRec) (r1 r2 : EnrollmentRec)
    (hs : r2.studentId = r1.studentId) (hc : r2.scheduleId = r1.scheduleId)
    (h0 : pairCount r1.studentId r1.scheduleId store = 0) :
    (enroll r1 store).result = Except.ok r1 ∧
    (enroll r1 store).store = store ++ [r1] ∧
    (enroll r2 (enroll r1 store).store).result =
      Except.error EnrollError.DuplicateEnrollmentError ∧
    (enroll r2 (enroll r1 store).store).store = (enroll r1 store).store ∧
    pairCount r1.studentId r1.scheduleId (enroll r2 (enroll r1 store).store).store = 1 := by
  have e1 : enroll r1 store = { result := Except.ok r1, store := store ++ [r1] } := by
    unfold enroll
    rw [h0]
    simp
  have hp : pairCount r1.studentId r1.scheduleId (store ++ [r1]) = 1 := by
    unfold pairCount at h0 ⊢
    rw [List.countP_append, h0]
    simp [List.countP_cons]
  have e2 : enroll r2 (store ++ [r1]) =
      { result := Except.error EnrollError.DuplicateEnrollmentError, store := store ++ [r1] } := by
    unfold enroll
    rw [hs, hc, hp]
    simp
  rw [e1]
  simp [e2, hp]

theorem c1_second_enroll_rejected_witness :
    (enroll c1E1 []).result = Except.ok c1E1 ∧
    (enroll c1E2 (enroll c1E1 []).store).result =
      Except.error EnrollError.DuplicateEnrollmentError ∧
    pairCount c1E1.studentId c1E1.scheduleId (enroll c1E2 (enroll c1E1 []).store).store = 1 := by
  have h := c1_second_enroll_rejected [] c1E1 c1E2 (by decide) (by decide) (by decide)
  exact ⟨h.1, h.2.2.1, h.2.2.2.2⟩

def c6Db : Db := { users := [], instructors := [], students := [], courses := [] }

def c6Course : CourseRec :=
  { cid := "cC", code := "ENG201", name := "Engineering Mechanics",
    department := "Engineering", credits := 3, ctype := "lecture", duration := 90,
    studentsEnrolled := 0, requiredCapacity := 60, specialRequirements := [],
    instructorId := some "ghost", instructorName := some "Dr. Prior Name", createdAt := 0 }

/-- Claim C6, counterexample: on a dangling instructor reference the Course
save proceeds, but the denormalized instructorName is not left unset — it
keeps its prior value. -/
theorem c6_counterexample_prior_value_kept :
    saveCourse c6Db c6Course = Except.ok c6Course ∧
    c6Course.instructorId = some "ghost" ∧
    findInstructor c6Db "ghost" = none ∧
    (coursePreSave c6Db c6Course).instructorName = some "Dr. Prior Name" := by
  exact ⟨rfl, rfl, rfl, rfl⟩

/-- Claim C6, amended: when a denormalization reference cannot be resolved
during a Course or Enrollment save, the save does not abort — the write
proceeds with the denormalized fields left at their prior values (hence unset
on a newly created record). -/
theorem c6_unresolved_reference_does_not_abort (db : Db) (c : CourseRec) (iid : Oid)
    (e : EnrollmentRec) (isNew modStudent modCourse : Bool)
    (hc : c.instructorId = some iid) (hi : findInstructor db iid = none)
    (hv : courseDocValid c = true)
    (hs : findStudent db e.studentId = none) (hco : findCourse db e.courseId = none)
    (hev : enrollmentDocValid e = true) :
    saveCourse db c = Except.ok c ∧
    saveEnrollment db isNew modStudent modCourse e = Except.ok e := by
  constructor
  · simp [saveCourse, hv, coursePreSave, hc, hi]
  · have hpre : enrollmentPreSave db isNew modStudent modCourse e = e := by
      unfold enrollmentPreSave
      by_cases h : (isNew || modStudent || modCourse) = true
      · rw [if_pos h]
        simp [hs, hco]
      · rw [if_neg h]
    simp [saveEnrollment, hev, hpre]

def c6Enrollment : EnrollmentRec :=
  { oid := "e9", studentId := "stuGhost", courseId := "crsGhost", scheduleId := none,
    instructorId := none, yearLevel := none, «section» := none, department := none,
    studentName := none, courseName := none, courseCode := none, createdAt := 0 }

theorem c6_unresolved_reference_does_not_abort_witness :
    saveCourse c6Db c6Course = Except.ok c6Course ∧
    saveEnrollment c6Db true false false c6Enrollment = Except.ok c6Enrollment :=
  c6_unresolved_reference_does_not_abort c6Db c6Course "ghost" c6Enrollment true false false
    rfl (by decide) (by decide) (by decide) (by decide) (by decide)

def c4SchedA : ScheduleRec :=
  newSchedule "crs1" "i1" "R1" "Monday" "09:00" "10:30" "First Term" 2024 "2024-2025" 0

def c4SchedB : ScheduleRec :=
  newSchedule "crs2" "i2" "R1" "Monday" "10:00" "11:00" "First Term" 2024 "2024-2025" 3

def c4SchedBad : ScheduleRec :=
  { c4SchedA with conflicts := ["Room conflict: Room R1 already booked Monday 09:00-10:30"] }

/-- Claim C4, counterexample: the store boundary registers schedules as
published without any conflict pass — a schedule overlapping an existing
published schedule in the same room is persisted with the default status
published and empty conflicts, and a published schedule with a non-empty
conflicts list is accepted and persisted as-is. -/
theorem c4_counterexample_published_without_pass :
    saveSchedule 5 c4SchedB [c4SchedA] = Except.ok [c4SchedA, schedulePreSave 5 c4SchedB] ∧
    (schedulePreSave 5 c4SchedB).status = "published" ∧
    (schedulePreSave 5 c4SchedB).conflicts = [] ∧
    c4SchedA.status = "published" ∧
    c4SchedB.roomId = c4SchedA.roomId ∧
    windowsOverlap (scheduleClaim c4SchedB) (scheduleClaim c4SchedA) = true ∧
    saveSchedule 7 c4SchedBad [] = Except.ok [schedulePreSave 7 c4SchedBad] ∧
    (schedulePreSave 7 c4SchedBad).status = "published" ∧
    (schedulePreSave 7 c4SchedBad).conflicts ≠ [] := by
  exact ⟨rfl, rfl, rfl, rfl, rfl, by decide, rfl, rfl, by decide⟩

/-- Claim C4, amended: the store boundary runs no conflict-detection pass —
the schedule pre-save hook sets only updatedAt, the schema defaults status to
published, and a valid schedule is persisted with its status and conflicts
exactly as the caller set them, independent of every other stored schedule. -/
theorem c4_store_persists_schedule_verbatim (now : Nat) (s : ScheduleRec)
    (store : List ScheduleRec) (hv : scheduleDocValid s = true) :
    saveSchedule now s store = Except.ok (store ++ [schedulePreSave now s]) ∧
    (schedulePreSave now s).status = s.status ∧
    (schedulePreSave now s).conflicts = s.conflicts ∧
    scheduleStatusDefault = "published" :=
  ⟨by simp [saveSchedule, hv], rfl, rfl, rfl⟩

theorem c4_store_persists_schedule_verbatim_witness :
    saveSchedule 5 c4SchedB [c4SchedA] = Except.ok ([c4SchedA] ++ [schedulePreSave 5 c4SchedB]) ∧
    (schedulePreSave 5 c4SchedB).status = c4SchedB.status ∧
    (schedulePreSave 5 c4SchedB).conflicts = c4SchedB.conflicts ∧
    scheduleStatusDefault = "published" :=
  c4_store_persists_schedule_verbatim 5 c4SchedB [c4SchedA] (by decide)

def c8Sched : ScheduleRow := { sid := "sch1", enrolledCount := 5 }

/-- Claim C8, counterexample: with zero fetched Enrollment records referencing
a schedule, the summary falls back to the API-provided count — the displayed
enrolledCount (5) differs from the number of Enrollment records fetched in the
same load (0). -/
theorem c8_counterexample_stale_fallback :
    trackedCount [] c8Sched.sid = 0 ∧
    summaryEnrolledCount [] c8Sched = 5 ∧
    summaryEnrolledCount [] c8Sched ≠ trackedCount [] c8Sched.sid := by decide

/-- Claim C8, amended: the displayed enrolledCount equals the number of
Enrollment records referencing the schedule whenever at least one such record
was fetched; with zero fetched records it falls back to the API-provided
enrolledCount (zero when absent). -/
theorem c8_count_reconciles_when_nonzero (es : List EnrollmentRow) (s : ScheduleRow) :
    (trackedCount es s.sid ≠ 0 → summaryEnrolledCount es s = trackedCount es s.sid) ∧
    (trackedCount es s.sid = 0 → summaryEnrolledCount es s = s.enrolledCount) := by
  unfold summaryEnrolledCount
  constructor <;> intro h <;> simp [h]

def c8Row : EnrollmentRow := { scheduleId := "sch1" }

theorem c8_count_reconciles_when_nonzero_witness :
    summaryEnrolledCount [c8Row] c8Sched = trackedCount [c8Row] c8Sched.sid :=
  (c8_count_reconciles_when_nonzero [c8Row] c8Sched).1 (by decide)

end SchedEase
